import Mathlib

/-!
Shallow embedding of `watch-dir` (src/main.rs): a filesystem watcher that
aggregates per-folder file counts and cumulative sizes into a shared
`HashMap<String, FolderStats>` and renders them sorted by size.

Modelling conventions:
* Rust `u64` arithmetic is `Nat` reduced modulo `2^64` (release-mode wrapping).
* The `HashMap` is an association list; `entry(..).or_insert(..)` appends a
  fresh key at the end and updates an existing key in place.
* OS queries made by the code (`is_file`, `parent`, `to_str`, `fs::metadata`)
  are fields of an `FsState` record; `none` is the `None`/`Err` answer, on
  which the Rust code calls `.unwrap()`.
* A Rust panic (a failed `.unwrap()`) is `Option.none` of the whole
  computation: no result is produced and the task dies.
-/

namespace WatchDir

/-- Modulus of Rust `u64` arithmetic. -/
def U64MOD : Nat := 18446744073709551616

/-- `struct FolderStats { size: u64, file_count: u64 }` (main.rs lines 23-27). -/
structure FolderStats where
  size : Nat
  file_count : Nat
deriving DecidableEq, Repr

/-- The shared `HashMap<String, FolderStats>` as an association list. -/
abbrev StatsTable := List (String × FolderStats)

/-- Lookup of a folder key in the table. -/
def lookupStats (t : StatsTable) (k : String) : Option FolderStats :=
  match t with
  | [] => none
  | (k0, s) :: rest => if k0 = k then some s else lookupStats rest k

/-- The mutation performed by `update_folder_stats` once folder and size are
resolved (main.rs lines 165-174): `entry(folder).or_insert({size:0,
file_count:0})`, then `file_count += 1` and `size += file_size`, with `u64`
wrapping. -/
def applyCreation (t : StatsTable) (folder : String) (file_size : Nat) : StatsTable :=
  match t with
  | [] => [(folder, ⟨file_size % U64MOD, 1 % U64MOD⟩)]
  | (k, s) :: rest =>
    if k = folder then
      (k, ⟨(s.size + file_size) % U64MOD, (s.file_count + 1) % U64MOD⟩) :: rest
    else
      (k, s) :: applyCreation rest folder file_size

/-- Fold a sequence of already-resolved creation events `(folder, size)`
through `applyCreation`. -/
def applyAll (t : StatsTable) (evs : List (String × Nat)) : StatsTable :=
  evs.foldl (fun acc e => applyCreation acc e.1 e.2) t

/-- Number of events in `evs` whose folder is `F`. -/
def countFolder (F : String) (evs : List (String × Nat)) : Nat :=
  (evs.filter (fun e => decide (e.1 = F))).length

/-- Sum of the sizes of the events in `evs` whose folder is `F`. -/
def sumFolder (F : String) (evs : List (String × Nat)) : Nat :=
  ((evs.filter (fun e => decide (e.1 = F))).map (fun e => e.2)).sum

lemma countFolder_nil (F : String) : countFolder F [] = 0 := rfl

lemma sumFolder_nil (F : String) : sumFolder F [] = 0 := rfl

lemma countFolder_cons (F f : String) (x : Nat) (rest : List (String × Nat)) :
    countFolder F ((f, x) :: rest) =
      (if f = F then 1 else 0) + countFolder F rest := by
  unfold countFolder
  by_cases h : f = F
  · simp [List.filter_cons, h]
    omega
  · simp [List.filter_cons, h]

lemma sumFolder_cons (F f : String) (x : Nat) (rest : List (String × Nat)) :
    sumFolder F ((f, x) :: rest) =
      (if f = F then x else 0) + sumFolder F rest := by
  unfold sumFolder
  by_cases h : f = F <;> simp [List.filter_cons, h]

lemma sumFolder_eq_zero (F : String) (evs : List (String × Nat))
    (h : countFolder F evs = 0) : sumFolder F evs = 0 := by
  unfold countFolder at h
  unfold sumFolder
  rw [List.length_eq_zero] at h
  simp [h]

lemma lookupStats_applyCreation (t : StatsTable) (f : String) (x : Nat) (F : String) :
    lookupStats (applyCreation t f x) F =
      if f = F then
        match lookupStats t F with
        | none => some ⟨x % U64MOD, 1 % U64MOD⟩
        | some s => some ⟨(s.size + x) % U64MOD, (s.file_count + 1) % U64MOD⟩
      else lookupStats t F := by
  induction t with
  | nil =>
    by_cases h : f = F <;> simp [applyCreation, lookupStats, h]
  | cons hd rest ih =>
    obtain ⟨k, s⟩ := hd
    by_cases hk : k = f
    · subst hk
      by_cases hF : k = F
      · simp [applyCreation, lookupStats, hF]
      · simp [applyCreation, lookupStats, hF]
    · by_cases hF : k = F
      · have hfF : ¬ f = F := fun hf => hk (hF.trans hf.symm)
        have hFf : ¬ F = f := fun hf => hk (hF.trans hf)
        simp [applyCreation, lookupStats, hk, hF, hfF, hFf]
      · simp [applyCreation, lookupStats, hk, hF, ih]

/-- Closed form for a whole sequence of creations: each folder's entry holds
the wrapped running count and size of the events that hit it. -/
lemma lookupStats_applyAll (evs : List (String × Nat)) (F : String) (t : StatsTable) :
    lookupStats (applyAll t evs) F =
      match lookupStats t F with
      | none =>
        if countFolder F evs = 0 then none
        else some ⟨sumFolder F evs % U64MOD, countFolder F evs % U64MOD⟩
      | some s =>
        if countFolder F evs = 0 then some s
        else some ⟨(s.size + sumFolder F evs) % U64MOD,
                   (s.file_count + countFolder F evs) % U64MOD⟩ := by
  induction evs generalizing t with
  | nil =>
    cases h : lookupStats t F <;> simp [applyAll, countFolder_nil, h]
  | cons e rest ih =>
    obtain ⟨f, x⟩ := e
    have step : applyAll t ((f, x) :: rest) = applyAll (applyCreation t f x) rest := rfl
    rw [step, ih, lookupStats_applyCreation, countFolder_cons, sumFolder_cons]
    by_cases hfF : f = F
    · rw [if_pos hfF, if_pos hfF, if_pos hfF]
      cases h : lookupStats t F with
      | none =>
        simp only [h]
        by_cases hc : countFolder F rest = 0
        · have hs := sumFolder_eq_zero F rest hc
          have hne : ¬ (1 + countFolder F rest = 0) := by omega
          rw [if_pos hc, if_neg hne, hs, hc]
          simp
        · have hne : ¬ (1 + countFolder F rest = 0) := by omega
          rw [if_neg hc, if_neg hne]
          simp only [Nat.mod_add_mod]
      | some s =>
        simp only [h]
        by_cases hc : countFolder F rest = 0
        · have hs := sumFolder_eq_zero F rest hc
          have hne : ¬ (1 + countFolder F rest = 0) := by omega
          rw [if_pos hc, if_neg hne, hs, hc]
          simp
        · have hne : ¬ (1 + countFolder F rest = 0) := by omega
          rw [if_neg hc, if_neg hne]
          simp only [Nat.mod_add_mod, Nat.add_assoc]
    · rw [if_neg hfF, if_neg hfF, if_neg hfF]
      simp only [Nat.zero_add]

lemma countFolder_perm {evs evs2 : List (String × Nat)} (h : evs.Perm evs2)
    (F : String) : countFolder F evs = countFolder F evs2 :=
  (h.filter _).length_eq

lemma sumFolder_perm {evs evs2 : List (String × Nat)} (h : evs.Perm evs2)
    (F : String) : sumFolder F evs = sumFolder F evs2 :=
  ((h.filter _).map _).sum_eq

/-- C1: after processing any finite sequence of creation events, each folder's
entry holds exactly the count and the summed sizes of the events under that
folder (when those fit in a `u64`); the resulting lookups are independent of
the arrival order; and the concrete scenario `a/x.txt` (10), `a/y.txt` (20),
`b/z.txt` (5) yields `{a: {size:30, count:2}, b: {size:5, count:1}}`. -/
theorem c1_aggregation_order_independent
    (evs : List (String × Nat)) (F : String)
    (hc : countFolder F evs < U64MOD) (hs : sumFolder F evs < U64MOD) :
    lookupStats (applyAll [] evs) F =
      (if countFolder F evs = 0 then none
       else some ⟨sumFolder F evs, countFolder F evs⟩) ∧
    (∀ evs2, evs.Perm evs2 →
      ∀ G, lookupStats (applyAll [] evs2) G = lookupStats (applyAll [] evs) G) ∧
    applyAll [] [("a", 10), ("a", 20), ("b", 5)] =
      [("a", ⟨30, 2⟩), ("b", ⟨5, 1⟩)] := by
  refine ⟨?_, ?_, ?_⟩
  · rw [lookupStats_applyAll]
    simp only [lookupStats]
    by_cases h0 : countFolder F evs = 0
    · rw [if_pos h0, if_pos h0]
    · rw [if_neg h0, if_neg h0, Nat.mod_eq_of_lt hs, Nat.mod_eq_of_lt hc]
  · intro evs2 hperm G
    rw [lookupStats_applyAll, lookupStats_applyAll]
    simp only [lookupStats]
    rw [countFolder_perm hperm G, sumFolder_perm hperm G]
  · decide

/-- Witness for C1 at the concrete three-event scenario. -/
theorem c1_witness :
    lookupStats (applyAll [] [("a", 10), ("a", 20), ("b", 5)]) "a" = some ⟨30, 2⟩ := by
  have h := (c1_aggregation_order_independent [("a", 10), ("a", 20), ("b", 5)] "a"
    (by decide) (by decide)).1
  exact h.trans (by decide)

/-- An abstract OS path (only ever inspected through `FsState` queries). -/
structure OsPath where
  pathId : Nat
deriving DecidableEq, Repr

/-- The OS-level queries the watcher performs on paths.  `none` models the
`None`/`Err` answer, which the Rust code unwraps (panicking). -/
structure FsState where
  /-- `path.is_file()` (main.rs line 142). -/
  is_file : OsPath → Bool
  /-- `path.parent()` (main.rs line 161); `none` at a filesystem root. -/
  parent : OsPath → Option OsPath
  /-- `path.to_str()` on a path (main.rs line 161); `none` when the path is
  not valid UTF-8. -/
  to_str : OsPath → Option String
  /-- `fs::metadata(path).map(|m| m.file_size())` (main.rs line 163); `none`
  when the metadata query fails (file vanished). -/
  metadata : OsPath → Option Nat

/-- `update_folder_stats` (main.rs lines 160-175).  Each `.unwrap()` on a
failing query is a panic, modelled as `none`: no table is produced and the
shared map is left untouched (the mutation happens only after all three
queries succeed). -/
def update_folder_stats (fs : FsState) (path : OsPath) (t : StatsTable) :
    Option StatsTable :=
  match fs.parent path with
  | none => none
  | some par =>
    match fs.to_str par with
    | none => none
    | some folder =>
      match fs.metadata path with
      | none => none
      | some file_size => some (applyCreation t folder file_size)

/-- `notify::event::CreateKind`. -/
inductive CreateKind
  | any
  | file
  | folder
  | other
deriving DecidableEq, Repr

/-- `notify::EventKind` (the constructors the watcher can receive). -/
inductive EventKind
  | access
  | create (k : CreateKind)
  | modify
  | remove
  | other
deriving DecidableEq, Repr

/-- A filesystem notification: `notify::Event { kind, paths }`. -/
structure NotifyEvent where
  kind : EventKind
  paths : List OsPath
deriving Repr

/-- Is the event kind any creation at all? -/
def isCreation : EventKind → Bool
  | .create _ => true
  | _ => false

/-- The filter of `watch_for_files` (main.rs lines 140-142): the event kind
must equal `EventKind::Create(CreateKind::Any)` (an equality test, not a
pattern match on every `Create`), the event must have a first path, and that
path must currently be a regular file.  Returns the accepted path. -/
def acceptedPath (fs : FsState) (ev : NotifyEvent) : Option OsPath :=
  if ev.kind = .create .any then
    match ev.paths.get? 0 with
    | some p => if fs.is_file p then some p else none
    | none => none
  else none

/-- One iteration of the watcher loop body for a received event
(main.rs lines 140-147), without the notification channel.  Result
`some (table, signalled)`; `none` is a panic inside `update_folder_stats`. -/
def processEvent (fs : FsState) (ev : NotifyEvent) (t : StatsTable) :
    Option (StatsTable × Bool) :=
  match acceptedPath fs ev with
  | none => some (t, false)
  | some p =>
    match update_folder_stats fs p t with
    | none => none
    | some t1 => some (t1, true)

/-- Capacity of the `mpsc::channel(32)` notification channel (main.rs
line 35). -/
def CAPACITY : Nat := 32

/-- `tx.send(()).await` on the bounded tokio channel when the receiver is
alive: if the queue has room the signal is enqueued at once; if the queue is
full the sender blocks — the signal is delayed (`true`), never lost, and the
queue is unchanged until the consumer drains. -/
def sendSignal (ch : List Unit) : List Unit × Bool :=
  if ch.length < CAPACITY then (ch ++ [()], false) else (ch, true)

/-- One iteration of the watcher loop body including the channel send
(main.rs lines 140-147).  `alive` says whether the receiver half still
exists; `tx.send(()).await.unwrap()` panics (`none`) when it does not.
The table mutation (line 143) happens strictly before the send (line 144). -/
def processEventCh (fs : FsState) (alive : Bool) (ev : NotifyEvent)
    (t : StatsTable) (ch : List Unit) :
    Option (StatsTable × List Unit × Bool) :=
  match acceptedPath fs ev with
  | none => some (t, ch, false)
  | some p =>
    match update_folder_stats fs p t with
    | none => none
    | some t1 =>
      if alive then some (t1, (sendSignal ch).1, (sendSignal ch).2)
      else none

/-- The order of the two effects in the accepted-event branch of
`watch_for_files` (main.rs lines 143-144). -/
inductive WatcherAction
  | updateStats
  | sendNotify
deriving DecidableEq, BEq, Repr

/-- main.rs lines 143-144: first `update_folder_stats(..)`, then
`tx.send(()).await`. -/
def watcherBodyActions : List WatcherAction :=
  [.updateStats, .sendNotify]

/-- A concrete file path for counterexamples and witnesses. -/
def p0 : OsPath := ⟨0⟩

/-- A concrete parent-directory path. -/
def dirPath : OsPath := ⟨1⟩

/-- A filesystem where every path is a regular file of size 10 whose parent
is `dirPath`, rendered as the folder string `"a"`. -/
def fsAllFiles : FsState :=
  { is_file := fun _ => true
    parent := fun _ => some dirPath
    to_str := fun _ => some "a"
    metadata := fun _ => some 10 }

/-- A filesystem where the `is_file` check passes but the metadata query
fails (the file vanished between the event and the size read). -/
def fsVanish : FsState :=
  { is_file := fun _ => true
    parent := fun _ => some dirPath
    to_str := fun _ => some "a"
    metadata := fun _ => none }

/-- A filesystem whose parent directories are not valid UTF-8. -/
def fsNonUtf8 : FsState :=
  { is_file := fun _ => true
    parent := fun _ => some dirPath
    to_str := fun _ => none
    metadata := fun _ => some 10 }

/-- An event with kind `Create(CreateKind::Any)` for `p0`. -/
def evCreateAny : NotifyEvent := ⟨.create .any, [p0]⟩

/-- An event with kind `Create(CreateKind::File)` for `p0`. -/
def evCreateFile : NotifyEvent := ⟨.create .file, [p0]⟩

lemma acceptedPath_eq_some (fs : FsState) (ev : NotifyEvent) (p : OsPath) :
    acceptedPath fs ev = some p ↔
      (ev.kind = .create .any ∧ ev.paths.get? 0 = some p ∧ fs.is_file p = true) := by
  unfold acceptedPath
  by_cases hk : ev.kind = .create .any
  · rw [if_pos hk]
    cases hp : ev.paths.get? 0 with
    | none => simp [hk, hp]
    | some q =>
      simp only [hp]
      by_cases hf : fs.is_file q
      · rw [if_pos hf]
        constructor
        · intro h
          injection h with h
          subst h
          exact ⟨hk, rfl, hf⟩
        · rintro ⟨-, hp2, -⟩
          injection hp2 with h
          rw [h]
      · rw [if_neg hf]
        constructor
        · intro h
          exact Option.noConfusion h
        · rintro ⟨-, hp2, hf2⟩
          injection hp2 with h
          subst h
          exact absurd hf2 hf
  · rw [if_neg hk]
    constructor
    · intro h
      exact Option.noConfusion h
    · rintro ⟨hk2, -, -⟩
      exact absurd hk2 hk

/-- C2 counterexample: an event whose kind is the creation
`Create(CreateKind::File)`, whose first path exists and is a regular file,
leaves the StatsTable unchanged and emits no signal — the code's filter is an
equality test against `Create(CreateKind::Any)` only (main.rs line 140). -/
theorem c2_counterexample :
    isCreation evCreateFile.kind = true ∧
    evCreateFile.paths.get? 0 = some p0 ∧
    fsAllFiles.is_file p0 = true ∧
    processEvent fsAllFiles evCreateFile [] = some ([], false) :=
  ⟨rfl, rfl, rfl, rfl⟩

/-- C2 (amended): the StatsTable is touched if and only if the event kind is
exactly `Create(CreateKind::Any)` and the event's first path is an existing
regular file; every other event (non-creations, but also creations reported
as `Create(File)`, `Create(Folder)` or `Create(Other)`, and events without a
regular-file first path) leaves the table unchanged and emits no signal; an
accepted event performs the (possibly panicking) update and then signals. -/
theorem c2_create_any_gate (fs : FsState) (ev : NotifyEvent) (t : StatsTable) :
    (∀ p, acceptedPath fs ev = some p ↔
        (ev.kind = .create .any ∧ ev.paths.get? 0 = some p ∧ fs.is_file p = true)) ∧
    (acceptedPath fs ev = none → processEvent fs ev t = some (t, false)) ∧
    (∀ p, acceptedPath fs ev = some p →
        processEvent fs ev t =
          (update_folder_stats fs p t).map (fun u => (u, true))) := by
  refine ⟨fun p => acceptedPath_eq_some fs ev p, ?_, ?_⟩
  · intro h
    unfold processEvent
    rw [h]
  · intro p h
    unfold processEvent
    rw [h]
    cases hu : update_folder_stats fs p t with
    | none => simp [hu]
    | some t1 => simp [hu]

/-- Witness for C2 (amended): an accepted `Create(Any)` event on a regular
file updates the table and signals. -/
theorem c2_gate_witness :
    processEvent fsAllFiles evCreateAny [] = some ([("a", ⟨10, 1⟩)], true) := by
  have h := (c2_create_any_gate fsAllFiles evCreateAny []).2.2 p0 (by rfl)
  exact h.trans (by decide)

/-- C3 counterexample: an event whose path passes the `is_file` check but
whose metadata query then fails (the file vanished) makes the watcher panic
(`fs::metadata(path).unwrap()`, main.rs line 163) — modelled as `none` — so
the event is not logged-and-skipped and the watcher does not continue. -/
theorem c3_counterexample :
    fsVanish.is_file p0 = true ∧
    acceptedPath fsVanish evCreateAny = some p0 ∧
    processEvent fsVanish evCreateAny [] = none :=
  ⟨rfl, rfl, rfl⟩

/-- C3 (amended): when the event's path has no resolvable parent or the
metadata/size query fails, `update_folder_stats` panics on the `.unwrap()`
(main.rs lines 161 and 163): the StatsTable is never touched for that event
(the mutation is unreachable), but the watcher task crashes instead of
logging, skipping, and continuing. -/
theorem c3_panic_on_transient_failure (fs : FsState) (p : OsPath) (t : StatsTable)
    (h : fs.parent p = none ∨ fs.metadata p = none) :
    update_folder_stats fs p t = none := by
  unfold update_folder_stats
  rcases h with h | h
  · rw [h]
  · cases hp : fs.parent p with
    | none => rfl
    | some par =>
      cases ht : fs.to_str par with
      | none => simp [ht]
      | some f => simp [ht, h]

/-- Witness for C3 (amended): the vanished-file filesystem makes
`update_folder_stats` panic. -/
theorem c3_panic_witness :
    update_folder_stats fsVanish p0 [] = none :=
  c3_panic_on_transient_failure fsVanish p0 [] (Or.inr rfl)

/-- C10: an accepted creation event whose parent directory is not valid
UTF-8 makes the folder-key derivation panic — `to_str().unwrap()`
(main.rs line 161) — modelled as `none`; and conversely any event that is
successfully processed has a parent that converts to a UTF-8 string. -/
theorem c10_non_utf8_parent_panics :
    processEvent fsNonUtf8 evCreateAny [] = none ∧
    (∀ fs p t t1, update_folder_stats fs p t = some t1 →
      ∃ par f, fs.parent p = some par ∧ fs.to_str par = some f) := by
  constructor
  · rfl
  · intro fs p t t1 h
    unfold update_folder_stats at h
    cases hp : fs.parent p with
    | none => simp [hp] at h
    | some par =>
      rw [hp] at h
      cases ht : fs.to_str par with
      | none => simp [ht] at h
      | some f => exact ⟨par, f, rfl, ht⟩

/-- C4: once a folder has an entry, applying any further creation events
never removes it, and (while the `u64` counters do not overflow) both its
`size` and its `file_count` are monotonically non-decreasing. -/
theorem c4_monotone_never_removed
    (t : StatsTable) (evs : List (String × Nat)) (k : String) (s : FolderStats)
    (h : lookupStats t k = some s)
    (hs : s.size + sumFolder k evs < U64MOD)
    (hc : s.file_count + countFolder k evs < U64MOD) :
    (∃ s2, lookupStats (applyAll t evs) k = some s2 ∧
      s.size ≤ s2.size ∧ s.file_count ≤ s2.file_count) ∧
    (∀ evs2, ∃ s3, lookupStats (applyAll t evs2) k = some s3) := by
  constructor
  · simp only [lookupStats_applyAll, h]
    by_cases h0 : countFolder k evs = 0
    · rw [if_pos h0]
      exact ⟨s, rfl, le_refl _, le_refl _⟩
    · rw [if_neg h0]
      refine ⟨_, rfl, ?_, ?_⟩
      · rw [Nat.mod_eq_of_lt hs]
        exact Nat.le_add_right _ _
      · rw [Nat.mod_eq_of_lt hc]
        exact Nat.le_add_right _ _
  · intro evs2
    simp only [lookupStats_applyAll, h]
    by_cases h0 : countFolder k evs2 = 0
    · rw [if_pos h0]
      exact ⟨s, rfl⟩
    · rw [if_neg h0]
      exact ⟨_, rfl⟩

/-- Witness for C4 at a concrete table and event sequence. -/
theorem c4_witness :
    (∃ s2, lookupStats (applyAll [("a", ⟨5, 1⟩)] [("a", 7), ("b", 3)]) "a" = some s2 ∧
      5 ≤ s2.size ∧ 1 ≤ s2.file_count) ∧
    (∀ evs2, ∃ s3, lookupStats (applyAll [("a", ⟨5, 1⟩)] evs2) "a" = some s3) :=
  c4_monotone_never_removed [("a", ⟨5, 1⟩)] [("a", 7), ("b", 3)] "a" ⟨5, 1⟩
    (by decide) (by decide) (by decide)

/-- C5: for an accepted creation event (with the receiver alive), the
resulting StatsTable is the updated one whatever the channel contents —
in particular a full channel only delays the signal and never loses or
corrupts the mutation — and in the loop body the table update (line 143)
precedes the channel send (line 144). -/
theorem c5_mutation_before_signal
    (fs : FsState) (ev : NotifyEvent) (p : OsPath) (t t1 : StatsTable) (ch : List Unit)
    (hp : acceptedPath fs ev = some p)
    (hu : update_folder_stats fs p t = some t1) :
    processEventCh fs true ev t ch = some (t1, (sendSignal ch).1, (sendSignal ch).2) ∧
    (ch.length = CAPACITY →
      processEventCh fs true ev t ch = some (t1, ch, true)) ∧
    watcherBodyActions.indexOf .updateStats < watcherBodyActions.indexOf .sendNotify := by
  have hmain : processEventCh fs true ev t ch =
      some (t1, (sendSignal ch).1, (sendSignal ch).2) := by
    unfold processEventCh
    rw [hp]
    simp [hu]
  refine ⟨hmain, ?_, by decide⟩
  intro hfull
  rw [hmain]
  unfold sendSignal
  rw [hfull]
  simp

/-- A notification channel filled to its capacity of 32. -/
def fullChannel : List Unit := List.replicate 32 ()

/-- Witness for C5: a full channel delays the signal but the mutation is in
the result. -/
theorem c5_witness :
    processEventCh fsAllFiles true evCreateAny [] fullChannel =
      some ([("a", ⟨10, 1⟩)], fullChannel, true) := by
  have h := c5_mutation_before_signal fsAllFiles evCreateAny p0 [] [("a", ⟨10, 1⟩)]
    fullChannel (by rfl) (by decide)
  exact h.2.1 (by decide)

/-- C7 counterexample: when the notification receiver has been dropped, the
send on an accepted event is fatal — `tx.send(()).await.unwrap()`
(main.rs line 144) panics and the watcher task dies (`none`). -/
theorem c7_counterexample :
    acceptedPath fsAllFiles evCreateAny = some p0 ∧
    processEventCh fsAllFiles false evCreateAny [] [] = none :=
  ⟨rfl, rfl⟩

/-- C7 (amended): for an accepted event, a full channel is non-fatal (the
cooperative send blocks and the loop body still completes with a result),
but a dropped receiver makes the unwrapped send panic, killing the watcher
task. -/
theorem c7_full_nonfatal_dropped_fatal
    (fs : FsState) (ev : NotifyEvent) (p : OsPath) (t t1 : StatsTable) (ch : List Unit)
    (hp : acceptedPath fs ev = some p)
    (hu : update_folder_stats fs p t = some t1) :
    (∃ r, processEventCh fs true ev t ch = some r) ∧
    processEventCh fs false ev t ch = none := by
  constructor
  · refine ⟨(t1, (sendSignal ch).1, (sendSignal ch).2), ?_⟩
    unfold processEventCh
    rw [hp]
    simp [hu]
  · unfold processEventCh
    rw [hp]
    simp [hu]

/-- Witness for C7 (amended) on a full channel. -/
theorem c7_witness :
    (∃ r, processEventCh fsAllFiles true evCreateAny [] fullChannel = some r) ∧
    processEventCh fsAllFiles false evCreateAny [] fullChannel = none :=
  c7_full_nonfatal_dropped_fatal fsAllFiles evCreateAny p0 [] [("a", ⟨10, 1⟩)]
    fullChannel rfl (by decide)

/-- Comparator of main.rs line 81, `sorted_by(|a, b| b.1.size.cmp(&a.1.size))`:
entry `a` may precede `b` when `b`'s size is at most `a`'s. -/
def sizeDescLe (a b : String × FolderStats) : Bool :=
  decide (b.2.size ≤ a.2.size)

/-- The render pass ordering (main.rs lines 79-81): a stable sort of the
table entries by descending size (`itertools::sorted_by` is a stable sort). -/
def sortByDescSize (t : StatsTable) : StatsTable :=
  t.mergeSort sizeDescLe

/-- C6: sorting a snapshot of the StatsTable for rendering always yields a
sequence of entries whose `size` fields are non-increasing, and that sequence
is a permutation of the snapshot (no entry invented, dropped or altered). -/
theorem c6_sorted_desc (t : StatsTable) :
    List.Pairwise (fun a b : String × FolderStats => b.2.size ≤ a.2.size)
      (sortByDescSize t) ∧
    (sortByDescSize t).Perm t := by
  constructor
  · have htrans : ∀ a b c : String × FolderStats,
        sizeDescLe a b = true → sizeDescLe b c = true → sizeDescLe a c = true := by
      intro a b c hab hbc
      exact decide_eq_true (le_trans (of_decide_eq_true hbc) (of_decide_eq_true hab))
    have htotal : ∀ a b : String × FolderStats,
        (sizeDescLe a b || sizeDescLe b a) = true := by
      intro a b
      simp only [sizeDescLe, Bool.or_eq_true, decide_eq_true_eq]
      exact Nat.le_total _ _
    have h := List.sorted_mergeSort htrans htotal t
    exact h.imp (fun hab => of_decide_eq_true hab)
  · exact List.mergeSort_perm t sizeDescLe

/-- One tick of the render loop in `main` (lines 58-114): the key event
delivered by the 100 ms poll, if any, and whether `terminal.draw`
succeeded. -/
structure Tick where
  key : Option Char
  draw_ok : Bool

/-- How the render loop ended. -/
inductive LoopExit
  | quit
  | err
deriving DecidableEq, Repr

/-- How `main` left the loop and which of the three terminal-restore steps
(main.rs lines 117-119) ran on the way out. -/
structure MainResult where
  exit : LoopExit
  raw_mode_disabled : Bool
  left_alt_screen : Bool
  cursor_shown : Bool
deriving DecidableEq, Repr

/-- The render loop of `main` (lines 58-121) over a script of ticks.  A `q`
key breaks out of the loop, after which lines 117-119 run
(`disable_raw_mode()`, `LeaveAlternateScreen`, `show_cursor()`); an error
from `terminal.draw` propagates immediately with `?`, returning from `main`
before those three lines.  `none`: the script ended with the loop still
running. -/
def runLoop : List Tick → Option MainResult
  | [] => none
  | tk :: rest =>
    if tk.key = some 'q' then some ⟨.quit, true, true, true⟩
    else if tk.draw_ok then runLoop rest
    else some ⟨.err, false, false, false⟩

/-- C8 counterexample: a tick on which `terminal.draw` fails exits `main`
through the `?` operator with none of the three restore steps performed —
raw mode stays enabled, the alternate screen is not left and the cursor is
not shown. -/
theorem c8_counterexample :
    runLoop [⟨none, false⟩] =
      some ⟨.err, false, false, false⟩ := rfl

/-- C8 (amended): the terminal is restored (raw mode off, alternate screen
left, cursor shown) exactly on the normal `q`-quit path; when the loop exits
via an error from the drawing backend, all three restore steps are skipped
and the terminal is left in raw/alternate-screen mode. -/
theorem c8_restore_only_on_quit (ticks : List Tick) (r : MainResult)
    (h : runLoop ticks = some r) :
    (r.exit = .quit →
      r.raw_mode_disabled = true ∧ r.left_alt_screen = true ∧ r.cursor_shown = true) ∧
    (r.exit = .err →
      r.raw_mode_disabled = false ∧ r.left_alt_screen = false ∧ r.cursor_shown = false) := by
  induction ticks with
  | nil => exact absurd h (by simp [runLoop])
  | cons tk rest ih =>
    unfold runLoop at h
    by_cases hq : tk.key = some 'q'
    · rw [if_pos hq] at h
      injection h with h
      subst h
      constructor
      · intro _
        exact ⟨rfl, rfl, rfl⟩
      · intro hx
        exact LoopExit.noConfusion hx
    · rw [if_neg hq] at h
      by_cases hd : tk.draw_ok = true
      · rw [if_pos hd] at h
        exact ih h
      · rw [if_neg hd] at h
        injection h with h
        subst h
        constructor
        · intro hx
          exact LoopExit.noConfusion hx
        · intro _
          exact ⟨rfl, rfl, rfl⟩

/-- Witness for C8 (amended) on the script where the user presses `q`. -/
theorem c8_witness :
    (LoopExit.quit = LoopExit.quit →
      (true : Bool) = true ∧ (true : Bool) = true ∧ (true : Bool) = true) ∧
    (LoopExit.quit = LoopExit.err →
      (true : Bool) = false ∧ (true : Bool) = false ∧ (true : Bool) = false) :=
  c8_restore_only_on_quit [⟨some 'q', true⟩] ⟨.quit, true, true, true⟩ (by decide)

/-- The actions of the `terminal.draw` closure (main.rs lines 69-105) in
program order: the mutex guard is taken on line 70 (`folder_stats.lock()`),
the layout is split on lines 73-76, the entries are sorted and the rows built
on lines 79-91, the list widget is drawn on line 104 (`f.render_widget`), and
the guard is dropped at the closure's end on line 105. -/
inductive UiAction
  | lockAcquire
  | layoutSplit
  | sortAndBuild
  | renderList
  | lockRelease
deriving DecidableEq, BEq, Repr

/-- The trace of the draw closure, main.rs lines 69-105. -/
def drawClosureActions : List UiAction :=
  [.lockAcquire, .layoutSplit, .sortAndBuild, .renderList, .lockRelease]

/-- Walks a trace with the current lock-hold depth and reports whether the
mutex is held when the first `renderList` action executes. -/
def lockHeldAtRender : List UiAction → Nat → Bool
  | [], _ => false
  | .lockAcquire :: rest, d => lockHeldAtRender rest (d + 1)
  | .lockRelease :: rest, d => lockHeldAtRender rest (d - 1)
  | .renderList :: _, d => decide (0 < d)
  | _ :: rest, d => lockHeldAtRender rest d

/-- C9 counterexample: in the code's draw closure the mutex is still held
when the list is drawn to the terminal — the lock is taken inside the
closure and released only after `render_widget`, so the claimed
copy-then-release snapshot discipline does not hold. -/
theorem c9_counterexample :
    lockHeldAtRender drawClosureActions 0 = true := rfl

/-- C9 (amended): the render pass acquires the StatsTable lock inside the
draw closure before sorting, holds it across building and drawing the list,
and releases it only when the closure ends — after `render_widget` — rather
than copying a snapshot out and releasing before rendering. -/
theorem c9_lock_held_across_render :
    lockHeldAtRender drawClosureActions 0 = true ∧
    drawClosureActions.indexOf .renderList <
      drawClosureActions.indexOf .lockRelease ∧
    drawClosureActions.indexOf .lockAcquire <
      drawClosureActions.indexOf .sortAndBuild :=
  ⟨rfl, by decide, by decide⟩
